import Mathlib

/-!
Verification of the bank-account application workflow (`src/generated/code.py`).

The Python source is shallowly embedded below:

* `Validator.is_valid_email`, `Validator.is_valid_phone` model the two
  `re.match` calls on their regular expressions (over the ASCII fragment of the
  character classes `\d` and `\s`, which is the fragment the repository and its
  scenarios exercise), including `re.match`'s prefix-matching for the email
  pattern and `$`'s before-final-newline semantics for the phone pattern;
* `parseDateYMD` models `datetime.strptime(s, "%Y-%m-%d")` (the only format the
  repository uses): a four-digit year, a one- or two-digit month 1..12, a one-
  or two-digit day 1..31 as accepted by CPython's `_strptime` regex, followed by
  the calendar-validity check performed by the `datetime` constructor;
* `ValidationResult` keeps its error mapping as an insertion-ordered
  association list, exactly the behaviour of a Python dict of lists;
* result dictionaries returned by the two submission methods are modelled as
  ordered key/value lists (`PyDict`) so that key presence and absence is
  observable;
* `BankAccountApplication`'s mutable attributes form the `AppState` structure,
  and the two public methods become pure functions from state and arguments to
  a result dictionary and a new state.  `print` calls are I/O only and carry no
  state, so they are dropped.
-/

/-- A calendar date, as produced by `datetime.strptime(...).date()`. -/
structure PyDate where
  y : Nat
  m : Nat
  d : Nat
deriving DecidableEq

/-- Strict comparison of dates, `a < b` lexicographically on (year, month, day),
the order used by `input_date > date.today()`. -/
def dateLt (a b : PyDate) : Bool :=
  decide (a.y < b.y) ||
    (decide (a.y = b.y) &&
      (decide (a.m < b.m) || (decide (a.m = b.m) && decide (a.d < b.d))))

/-- Leap-year rule used by Python's `datetime` module. -/
def isLeap (y : Nat) : Bool :=
  (decide (y % 4 = 0) && !decide (y % 100 = 0)) || decide (y % 400 = 0)

/-- Days in a month, as enforced by the `datetime` constructor. -/
def daysInMonth (y m : Nat) : Nat :=
  if m = 2 then (if isLeap y then 29 else 28)
  else if m = 4 ∨ m = 6 ∨ m = 9 ∨ m = 11 then 30
  else 31

/-- Split a character list at every occurrence of `sep` (like `str.split`). -/
def splitOnChar (sep : Char) : List Char → List (List Char)
  | [] => [[]]
  | c :: t =>
    let r := splitOnChar sep t
    if c = sep then [] :: r
    else
      match r with
      | h :: t2 => (c :: h) :: t2
      | [] => [[c]]

/-- Numeric value of a nonempty all-digit character list (`int` on the matched
group). -/
def digitsToNat? (l : List Char) : Option Nat :=
  if !l.isEmpty && l.all Char.isDigit then
    some (l.foldl (fun a c => a * 10 + (c.toNat - 48)) 0)
  else none

/-- Value of the `%m` group: CPython's month pattern `1[0-2]|0[1-9]|[1-9]`
accepts exactly a one- or two-digit month with value 1..12 when the whole
token must be consumed (no unconverted data). -/
def monthToNat? (l : List Char) : Option Nat :=
  match digitsToNat? l with
  | some m =>
    if (l.length = 1 ∨ l.length = 2) ∧ 1 ≤ m ∧ m ≤ 12 then some m else none
  | none => none

/-- Value of the `%d` group: CPython's day pattern
`3[0-1]|[1-2]\d|0[1-9]|[1-9]| [1-9]` accepts, on a fully consumed token,
a one- or two-digit day with value 1..31 or a space-padded single digit 1..9. -/
def dayToNat? (l : List Char) : Option Nat :=
  match l with
  | [' ', c] =>
    if c.isDigit ∧ c ≠ '0' then some (c.toNat - 48) else none
  | _ =>
    match digitsToNat? l with
    | some d =>
      if (l.length = 1 ∨ l.length = 2) ∧ 1 ≤ d ∧ d ≤ 31 then some d else none
    | none => none

/-- Model of `datetime.strptime(s, "%Y-%m-%d").date()` on a character list:
CPython's `_strptime` compiles the format to a regex demanding exactly four
digits for `%Y`, the `%m` month group, the `%d` day group (which also allows
a space-padded single-digit day), with no unconverted data; the `datetime`
constructor then requires a year of at least 1 and a calendar-valid day. -/
def parseDateChars (l : List Char) : Option PyDate :=
  match splitOnChar '-' l with
  | [ys, ms, ds] =>
    match digitsToNat? ys, monthToNat? ms, dayToNat? ds with
    | some y, some m, some d =>
      if ys.length = 4 ∧ 1 ≤ y ∧ d ≤ daysInMonth y m
      then some ⟨y, m, d⟩ else none
    | _, _, _ => none
  | _ => none

/-- Model of `datetime.strptime(s, "%Y-%m-%d").date()` on a string. -/
def parseDateYMD (s : String) : Option PyDate :=
  parseDateChars s.toList

namespace Validator

/-- Second half of the email regex: after the first `@`, the pattern
`[^@]+\.[^@]+` must match a prefix of the remaining characters. -/
def emailTailOk (r : List Char) : Bool :=
  (List.range r.length).any fun k =>
    decide (1 ≤ k) && (r.take k).all (fun c => !(c == '@')) &&
      (r.get? k == some '.') &&
      (match r.get? (k + 1) with
       | some c => !(c == '@')
       | none => false)

/-- Model of `re.match(r"[^@]+@[^@]+\.[^@]+", email) is not None`: a nonempty
run of non-`@` characters, the first `@`, then `emailTailOk`; `re.match` only
requires a prefix of the input to match. -/
def is_valid_email (email : String) : Bool :=
  let cs := email.toList
  let localPart := cs.takeWhile (fun c => !(c == '@'))
  match cs.drop localPart.length with
  | '@' :: r => !localPart.isEmpty && emailTailOk r
  | _ => false

/-- Model of `Validator.is_future_date` with the default format: on parse
failure return `true`, otherwise compare the parsed date strictly against the
injected `today`. -/
def is_future_date (today : PyDate) (dt_str : String) : Bool :=
  match parseDateYMD dt_str with
  | some d => dateLt today d
  | none => true

/-- ASCII fragment of the regex class `\s`. -/
def pySpace (c : Char) : Bool :=
  c = ' ' || c = '\t' || c = '\n' || c = '\r' || c = '\x0b' || c = '\x0c'

/-- ASCII fragment of the regex class `[\d\s-]`. -/
def phoneClass (c : Char) : Bool :=
  c.isDigit || pySpace c || c = '-'

/-- The effect of the optional `\+?`: since `+` is not in the character class
`[\d\s-]`, the regex consumes a leading `+` exactly when one is present. -/
def phoneTail (cs : List Char) : List Char :=
  if cs.head? = some '+' then cs.tail else cs

/-- The `[\d\s-]{7,15}$` part of the phone regex on the characters after the
optional `+`: either the whole rest is 7 to 15 class characters and `$`
matches at the end, or all but a final newline are 7 to 15 class characters
and `$` matches just before that final newline. -/
def phoneBodyMatch (r : List Char) : Bool :=
  (decide (7 ≤ r.length) && decide (r.length ≤ 15) && r.all phoneClass) ||
    (decide (8 ≤ r.length) && decide (r.length ≤ 16) && r.dropLast.all phoneClass &&
      (r.getLast? == some '\n'))

/-- Model of `re.match(r"^\+?[\d\s-]{7,15}$", phone_number) is not None`. -/
def is_valid_phone (phone_number : String) : Bool :=
  phoneBodyMatch (phoneTail phone_number.toList)

end Validator

/-- Configured size limit, `MAX_FILE_SIZE_MB = 5`. -/
def MAX_FILE_SIZE_MB : Nat := 5

/-- Configured allow-list, `ACCEPTED_DOCUMENT_TYPES`. -/
def ACCEPTED_DOCUMENT_TYPES : List String :=
  ["image/jpeg", "image/png", "application/pdf"]

/-- Append a message for `f` to an insertion-ordered error mapping, the effect
of `self.errors[field].append(message)` after `self.errors.setdefault`-style
initialisation in `ValidationResult.add_error`. -/
def addMsg : List (String × List String) → String → String → List (String × List String)
  | [], f, m => [(f, [m])]
  | (k, ms) :: t, f, m =>
    if f = k then (k, ms ++ [m]) :: t else (k, ms) :: addMsg t f m

/-- Ordered-dictionary lookup (`d.get(k)` returning `None` when absent). -/
def lookupAssoc {α : Type} : List (String × α) → String → Option α
  | [], _ => none
  | (k0, v) :: t, k => if k = k0 then some v else lookupAssoc t k

/-- Overwrite or append one key, the effect of `d[k] = v` on a Python dict. -/
def setAssoc {α : Type} : List (String × α) → String → α → List (String × α)
  | [], k, v => [(k, v)]
  | (k0, v0) :: t, k, v =>
    if k0 = k then (k0, v) :: t else (k0, v0) :: setAssoc t k v

/-- Model of `base.update(upd)` on Python dicts as association lists. -/
def updateAssoc {α : Type} (base upd : List (String × α)) : List (String × α) :=
  upd.foldl (fun acc kv => setAssoc acc kv.1 kv.2) base

/-- The `ValidationResult` class: a validity flag and an insertion-ordered
error mapping from field name to the list of messages for that field. -/
structure ValidationResult where
  is_valid : Bool
  errors : List (String × List String)
deriving DecidableEq

/-- `ValidationResult()`. -/
def mkVR : ValidationResult := ⟨true, []⟩

/-- `ValidationResult.add_error`. -/
def ValidationResult.add_error (r : ValidationResult) (f m : String) : ValidationResult :=
  ⟨false, addMsg r.errors f m⟩

/-- Python truthiness of `errors.get(field)`: `None` and the empty list are
falsy, a nonempty message list is truthy. -/
def pyFalsyOpt : Option (List String) → Bool
  | none => true
  | some l => l.isEmpty

/-- The `PersonalDetailsData` constructor arguments. -/
structure PersonalDetailsData where
  full_name : String
  date_of_birth : String
  residential_address : String
  email : String
  phone_number : String
deriving DecidableEq

/-- One mandatory check, `if not value: result.add_error(field, message)`
(Python's `not` on these strings is the emptiness test). -/
def mandStep (v f m : String) (r : ValidationResult) : ValidationResult :=
  if v = "" then r.add_error f m else r

/-- The five mandatory checks of `PersonalDetailsData.validate`, in source
order. -/
def pdMandatory (pd : PersonalDetailsData) : ValidationResult :=
  mandStep pd.phone_number "phone_number" "Phone Number is mandatory."
    (mandStep pd.email "email" "Email is mandatory."
      (mandStep pd.residential_address "residential_address" "Residential Address is mandatory."
        (mandStep pd.date_of_birth "date_of_birth" "Date of Birth is mandatory."
          (mandStep pd.full_name "full_name" "Full Name is mandatory." mkVR))))

/-- The date-of-birth block of `PersonalDetailsData.validate`: guarded by the
field being nonempty with no prior error; `strptime` failure yields the format
error, otherwise `is_future_date` decides the future error. -/
def pdDobCheck (today : PyDate) (pd : PersonalDetailsData) (r : ValidationResult) : ValidationResult :=
  if pd.date_of_birth ≠ "" ∧ pyFalsyOpt (lookupAssoc r.errors "date_of_birth") = true then
    match parseDateYMD pd.date_of_birth with
    | some _ =>
      if Validator.is_future_date today pd.date_of_birth then
        r.add_error "date_of_birth" "Date of birth cannot be in the future."
      else r
    | none => r.add_error "date_of_birth" "Invalid date of birth format. Please use YYYY-MM-DD."
  else r

/-- The email block of `PersonalDetailsData.validate`. -/
def pdEmailCheck (pd : PersonalDetailsData) (r : ValidationResult) : ValidationResult :=
  if pd.email ≠ "" ∧ pyFalsyOpt (lookupAssoc r.errors "email") = true then
    if Validator.is_valid_email pd.email then r
    else r.add_error "email" "Please enter a valid email address."
  else r

/-- The phone block of `PersonalDetailsData.validate`. -/
def pdPhoneCheck (pd : PersonalDetailsData) (r : ValidationResult) : ValidationResult :=
  if pd.phone_number ≠ "" ∧ pyFalsyOpt (lookupAssoc r.errors "phone_number") = true then
    if Validator.is_valid_phone pd.phone_number then r
    else r.add_error "phone_number" "Please enter a valid phone number."
  else r

/-- `PersonalDetailsData.validate`, transliterated check for check: the five
mandatory checks, then the date-of-birth format/future block, then the email
and phone format blocks, run sequentially on one accumulating result. -/
def PersonalDetailsData.validate (pd : PersonalDetailsData) (today : PyDate) : ValidationResult :=
  pdPhoneCheck pd (pdEmailCheck pd (pdDobCheck today pd (pdMandatory pd)))

/-- A single apostrophe, used by the f-string in `DocumentData.validate`. -/
def apos : String := String.mk [Char.ofNat 39]

/-- The `DocumentData` constructor arguments that validation inspects
(`content` is an opaque payload the core never reads). -/
structure DocumentData where
  filename : String
  content_type : String
  size_bytes : Nat
deriving DecidableEq

/-- Message produced for a media type outside the allow-list; the f-string
join over `ACCEPTED_DOCUMENT_TYPES` renders as `jpeg, png, pdf`. -/
def typeMsg (ct : String) : String :=
  "File type " ++ apos ++ ct ++ apos ++
    " is not allowed. Accepted types: jpeg, png, pdf."

/-- Message produced for an oversized file. -/
def sizeMsg : String := "File exceeds the maximum size limit of 5MB."

/-- `DocumentData.validate`: allow-list membership and strict size check, run
independently, both reporting under the caller-supplied field name. -/
def DocumentData.validate (doc : DocumentData) (field_name : String) : ValidationResult :=
  let r0 := mkVR
  let r1 := if !(ACCEPTED_DOCUMENT_TYPES.contains doc.content_type) then
              r0.add_error field_name (typeMsg doc.content_type)
            else r0
  let r2 := if MAX_FILE_SIZE_MB * 1024 * 1024 < doc.size_bytes then
              r1.add_error field_name sizeMsg
            else r1
  r2

/-- Error values inside a result dictionary: the flow-error branch stores a
plain string under `application_flow`, field validation stores message lists. -/
inductive PyErr where
  | es : String → PyErr
  | el : List String → PyErr
deriving DecidableEq

/-- The `errors` dictionary of a result. -/
abbrev ErrDict := List (String × PyErr)

/-- Values of the result dictionaries the two submission methods return. -/
inductive PyVal where
  | vb : Bool → PyVal
  | vs : String → PyVal
  | verr : ErrDict → PyVal
deriving DecidableEq

/-- A result dictionary, insertion ordered exactly as the source writes it. -/
abbrev PyDict := List (String × PyVal)

/-- The flow-error dictionary `{"success": False, "errors": {"application_flow": msg}}`;
note the source puts no `current_step` key in this dictionary. -/
def flowErr (msg : String) : PyDict :=
  [("success", PyVal.vb false),
   ("errors", PyVal.verr [("application_flow", PyErr.es msg)])]

/-- The failed-validation dictionary
`{"success": False, "errors": ..., "current_step": ...}`. -/
def invalidRes (errs : List (String × List String)) (cur : String) : PyDict :=
  [("success", PyVal.vb false),
   ("errors", PyVal.verr (errs.map fun p => (p.1, PyErr.el p.2))),
   ("current_step", PyVal.vs cur)]

/-- The success dictionary `{"success": True, "message": ..., "next_step": ...}`. -/
def successRes (msg next : String) : PyDict :=
  [("success", PyVal.vb true), ("message", PyVal.vs msg),
   ("next_step", PyVal.vs next)]

/-- The mutable attributes of a `BankAccountApplication` instance.  The secure
storage starts as two empty dicts and each key is overwritten wholesale by
`_securely_store_data`, so each slot is `none` (empty) or the stored payload. -/
structure AppState where
  current_step : String
  personal_details_data : Option PersonalDetailsData
  primary_id_document : Option DocumentData
  proof_of_address_document : Option DocumentData
  storage_personal_details : Option PersonalDetailsData
  storage_documents : Option (DocumentData × DocumentData)
deriving DecidableEq

/-- `BankAccountApplication.__init__`. -/
def initApp : AppState :=
  ⟨"personal_details", none, none, none, none, none⟩

/-- `BankAccountApplication.submit_personal_details`. -/
def submit_personal_details (today : PyDate) (st : AppState)
    (full_name date_of_birth residential_address email phone_number : String) :
    PyDict × AppState :=
  if st.current_step ≠ "personal_details" then
    (flowErr ("Currently on step: " ++ st.current_step ++ ". Cannot submit personal details."), st)
  else
    let details : PersonalDetailsData :=
      ⟨full_name, date_of_birth, residential_address, email, phone_number⟩
    let vr := details.validate today
    if vr.is_valid then
      (successRes "Personal details successfully submitted." "id_verification",
       { st with
           current_step := "id_verification",
           personal_details_data := some details,
           storage_personal_details := some details })
    else
      (invalidRes vr.errors st.current_step, st)

/-- The combination step of `upload_identity_documents`: a fresh
`ValidationResult` whose errors are `dict.update`d with each failing
document's errors. -/
def combineDocs (p a : ValidationResult) : ValidationResult :=
  let c := mkVR
  let c := if p.is_valid then c else ⟨false, updateAssoc c.errors p.errors⟩
  let c := if a.is_valid then c else ⟨false, updateAssoc c.errors a.errors⟩
  c

/-- `BankAccountApplication.upload_identity_documents`. -/
def upload_identity_documents (st : AppState) (primary proof : DocumentData) :
    PyDict × AppState :=
  if st.current_step ≠ "id_verification" then
    (flowErr ("Currently on step: " ++ st.current_step ++ ". Cannot upload documents."), st)
  else if st.personal_details_data = none then
    (flowErr "Personal details must be completed first.", st)
  else
    let pv := primary.validate "primary_id_document"
    let av := proof.validate "proof_of_address_document"
    let combined := combineDocs pv av
    if combined.is_valid then
      (successRes "Documents uploaded successfully. Proceeding to review." "review_and_submit",
       { st with
           current_step := "review_and_submit",
           primary_id_document := some primary,
           proof_of_address_document := some proof,
           storage_documents := some (primary, proof) })
    else
      (invalidRes combined.errors st.current_step, st)

/-- One externally invocable submission, with its payload. -/
inductive AppOp where
  | submitPD (full_name date_of_birth residential_address email phone_number : String)
  | uploadDocs (primary proof : DocumentData)

/-- Dispatch one submission against the current state. -/
def applyOp (today : PyDate) (st : AppState) : AppOp → PyDict × AppState
  | .submitPD f d r e p => submit_personal_details today st f d r e p
  | .uploadDocs p a => upload_identity_documents st p a

/-- The step an operation targets (the step its wrong-step guard demands). -/
def opTarget : AppOp → String
  | .submitPD _ _ _ _ _ => "personal_details"
  | .uploadDocs _ _ => "id_verification"

/-- The wrong-step flow message each method produces. -/
def wrongStepMsg (st : AppState) : AppOp → String
  | .submitPD _ _ _ _ _ =>
      "Currently on step: " ++ st.current_step ++ ". Cannot submit personal details."
  | .uploadDocs _ _ =>
      "Currently on step: " ++ st.current_step ++ ". Cannot upload documents."

/-- The field-validation outcome of an operation; it depends only on the
payload (and the injected clock), never on the instance state. -/
def opValidation (today : PyDate) : AppOp → ValidationResult
  | .submitPD f d r e p => (PersonalDetailsData.mk f d r e p).validate today
  | .uploadDocs p a =>
      combineDocs (p.validate "primary_id_document") (a.validate "proof_of_address_document")

/-- Run a sequence of submissions, keeping only the final state. -/
def runOps (today : PyDate) (st : AppState) : List AppOp → AppState
  | [] => st
  | op :: t => runOps today (applyOp today st op).2 t

/-- Resubmit the same operation `n + 1` times, returning the last result and
the final state. -/
def iterOp (today : PyDate) (op : AppOp) : Nat → AppState → PyDict × AppState
  | 0, st => applyOp today st op
  | n + 1, st => iterOp today op n (applyOp today st op).2

/-- Position of a step in the fixed ordering; unknown labels collapse to the
first position. -/
def stepOrder (s : String) : Nat :=
  if s = "id_verification" then 1
  else if s = "review_and_submit" then 2
  else 0

/-- Truthiness of `result["success"]`. -/
def resSuccess (r : PyDict) : Bool :=
  match lookupAssoc r "success" with
  | some (PyVal.vb b) => b
  | _ => false

/-- The entry for `k` inside a result's `errors` dictionary, if any. -/
def errVal (r : PyDict) (k : String) : Option PyErr :=
  match lookupAssoc r "errors" with
  | some (PyVal.verr d) => lookupAssoc d k
  | _ => none

/-- The shape of every reachable state: the step label is one of the three
source literals, and away from the first step a personal-details record has
been committed. -/
def reachInv (s : AppState) : Prop :=
  (s.current_step = "personal_details" ∨ s.current_step = "id_verification" ∨
    s.current_step = "review_and_submit") ∧
  (s.current_step ≠ "personal_details" → s.personal_details_data ≠ none)

/-- The spec's reading of the phone check, in its own words: an optional
leading plus, then 7 to 15 characters each drawn from the set consisting of
the decimal digits, the space and the hyphen, and nothing else. -/
def phoneSpecClaim (s : String) : Prop :=
  ∃ body : List Char,
    (s.toList = body ∨ s.toList = '+' :: body) ∧
    7 ≤ body.length ∧ body.length ≤ 15 ∧
    ∀ c ∈ body, (c.isDigit = true ∨ c = ' ' ∨ c = '-')

/-- The amended reading forced by the code: the body characters range over the
whole class `[\d\s-]` (digits, any whitespace, hyphen), and a single trailing
newline may follow the body because `$` also matches before a final newline. -/
def phoneSpecAmended (s : String) : Prop :=
  ∃ body tail : List Char,
    (s.toList = body ++ tail ∨ s.toList = '+' :: (body ++ tail)) ∧
    7 ≤ body.length ∧ body.length ≤ 15 ∧
    (∀ c ∈ body, Validator.phoneClass c = true) ∧
    (tail = [] ∨ tail = ['\n'])

/-- The extra precondition, besides the step match, that a submission must
pass before its validation is run: uploading requires a committed
personal-details record. -/
def opReady (st : AppState) : AppOp → Prop
  | .submitPD _ _ _ _ _ => True
  | .uploadDocs _ _ => st.personal_details_data ≠ none

/-- A fixed injected clock for concrete runs. -/
def t0 : PyDate := ⟨2024, 1, 1⟩

/-- The all-valid personal-details submission of the first source scenario. -/
def aliceOp : AppOp :=
  .submitPD "Alice Wonderland" "1990-01-15" "123 Rabbit Hole, Wonderland, WN1 2AB"
    "alice@wonderland.com" "+447123456789"

/-- A well-formed one-megabyte JPEG descriptor. -/
def jpegDoc : DocumentData := ⟨"passport.jpg", "image/jpeg", 1048576⟩

/-- A well-formed half-megabyte PDF descriptor. -/
def pdfDoc : DocumentData := ⟨"utility_bill.pdf", "application/pdf", 512000⟩

/-- A descriptor violating both the allow-list and the size limit. -/
def badDoc : DocumentData := ⟨"passport.docx", "application/msword", 6291456⟩

/-! ### Association-list lemmas -/

theorem lookupAssoc_addMsg_ne {l : List (String × List String)} {f m k : String}
    (h : k ≠ f) : lookupAssoc (addMsg l f m) k = lookupAssoc l k := by
  induction l with
  | nil => simp [addMsg, lookupAssoc, h]
  | cons hd t ih =>
    obtain ⟨k0, v⟩ := hd
    by_cases hf : f = k0
    · subst hf
      simp [addMsg, lookupAssoc, h]
    · simp [addMsg, lookupAssoc, hf, ih]

theorem lookupAssoc_addMsg_self {l : List (String × List String)} {f m : String} :
    lookupAssoc (addMsg l f m) f = some ((lookupAssoc l f).getD [] ++ [m]) := by
  induction l with
  | nil => simp [addMsg, lookupAssoc]
  | cons hd t ih =>
    obtain ⟨k0, v⟩ := hd
    by_cases hf : f = k0
    · subst hf
      simp [addMsg, lookupAssoc]
    · simp [addMsg, lookupAssoc, hf, Ne.symm hf, ih]

theorem lookupAssoc_add_error_ne (r : ValidationResult) {f k : String} (m : String)
    (h : k ≠ f) : lookupAssoc (r.add_error f m).errors k = lookupAssoc r.errors k :=
  lookupAssoc_addMsg_ne h

/-! ### Result-dictionary lemmas -/

theorem resSuccess_flowErr (msg : String) : resSuccess (flowErr msg) = false := rfl

theorem resSuccess_invalidRes (e : List (String × List String)) (c : String) :
    resSuccess (invalidRes e c) = false := rfl

theorem resSuccess_successRes (m n : String) : resSuccess (successRes m n) = true := rfl

/-! ### Characterizing the personal-details validation, key by key -/

theorem lookup_mandStep_ne {k f : String} (v m : String) (r : ValidationResult)
    (h : k ≠ f) : lookupAssoc (mandStep v f m r).errors k = lookupAssoc r.errors k := by
  unfold mandStep
  split
  · exact lookupAssoc_add_error_ne r m h
  · rfl

theorem lookup_mandStep_self (v f m : String) (r : ValidationResult) :
    lookupAssoc (mandStep v f m r).errors f =
      if v = "" then some ((lookupAssoc r.errors f).getD [] ++ [m])
      else lookupAssoc r.errors f := by
  unfold mandStep
  split <;> simp [ValidationResult.add_error, lookupAssoc_addMsg_self]

theorem lookup_pdDobCheck_ne (today : PyDate) (pd : PersonalDetailsData)
    (r : ValidationResult) {k : String} (h : k ≠ "date_of_birth") :
    lookupAssoc (pdDobCheck today pd r).errors k = lookupAssoc r.errors k := by
  unfold pdDobCheck
  split
  · split
    · split
      · exact lookupAssoc_add_error_ne r _ h
      · rfl
    · exact lookupAssoc_add_error_ne r _ h
  · rfl

theorem lookup_pdEmailCheck_ne (pd : PersonalDetailsData) (r : ValidationResult)
    {k : String} (h : k ≠ "email") :
    lookupAssoc (pdEmailCheck pd r).errors k = lookupAssoc r.errors k := by
  unfold pdEmailCheck
  split
  · split
    · rfl
    · exact lookupAssoc_add_error_ne r _ h
  · rfl

theorem lookup_pdPhoneCheck_ne (pd : PersonalDetailsData) (r : ValidationResult)
    {k : String} (h : k ≠ "phone_number") :
    lookupAssoc (pdPhoneCheck pd r).errors k = lookupAssoc r.errors k := by
  unfold pdPhoneCheck
  split
  · split
    · rfl
    · exact lookupAssoc_add_error_ne r _ h
  · rfl

theorem pdMandatory_full_name (pd : PersonalDetailsData) :
    lookupAssoc (pdMandatory pd).errors "full_name" =
      if pd.full_name = "" then some ["Full Name is mandatory."] else none := by
  unfold pdMandatory
  rw [lookup_mandStep_ne _ _ _ (by decide), lookup_mandStep_ne _ _ _ (by decide),
      lookup_mandStep_ne _ _ _ (by decide), lookup_mandStep_ne _ _ _ (by decide),
      lookup_mandStep_self]
  simp [mkVR, lookupAssoc]

theorem pdMandatory_date_of_birth (pd : PersonalDetailsData) :
    lookupAssoc (pdMandatory pd).errors "date_of_birth" =
      if pd.date_of_birth = "" then some ["Date of Birth is mandatory."] else none := by
  unfold pdMandatory
  rw [lookup_mandStep_ne _ _ _ (by decide), lookup_mandStep_ne _ _ _ (by decide),
      lookup_mandStep_ne _ _ _ (by decide), lookup_mandStep_self,
      lookup_mandStep_ne _ _ _ (by decide)]
  simp [mkVR, lookupAssoc]

theorem pdMandatory_residential_address (pd : PersonalDetailsData) :
    lookupAssoc (pdMandatory pd).errors "residential_address" =
      if pd.residential_address = "" then some ["Residential Address is mandatory."] else none := by
  unfold pdMandatory
  rw [lookup_mandStep_ne _ _ _ (by decide), lookup_mandStep_ne _ _ _ (by decide),
      lookup_mandStep_self, lookup_mandStep_ne _ _ _ (by decide),
      lookup_mandStep_ne _ _ _ (by decide)]
  simp [mkVR, lookupAssoc]

theorem pdMandatory_email (pd : PersonalDetailsData) :
    lookupAssoc (pdMandatory pd).errors "email" =
      if pd.email = "" then some ["Email is mandatory."] else none := by
  unfold pdMandatory
  rw [lookup_mandStep_ne _ _ _ (by decide), lookup_mandStep_self,
      lookup_mandStep_ne _ _ _ (by decide), lookup_mandStep_ne _ _ _ (by decide),
      lookup_mandStep_ne _ _ _ (by decide)]
  simp [mkVR, lookupAssoc]

theorem pdMandatory_phone_number (pd : PersonalDetailsData) :
    lookupAssoc (pdMandatory pd).errors "phone_number" =
      if pd.phone_number = "" then some ["Phone Number is mandatory."] else none := by
  unfold pdMandatory
  rw [lookup_mandStep_self, lookup_mandStep_ne _ _ _ (by decide),
      lookup_mandStep_ne _ _ _ (by decide), lookup_mandStep_ne _ _ _ (by decide),
      lookup_mandStep_ne _ _ _ (by decide)]
  simp [mkVR, lookupAssoc]

theorem validate_errs_full_name (pd : PersonalDetailsData) (today : PyDate) :
    lookupAssoc (pd.validate today).errors "full_name" =
      if pd.full_name = "" then some ["Full Name is mandatory."] else none := by
  unfold PersonalDetailsData.validate
  rw [lookup_pdPhoneCheck_ne _ _ (by decide), lookup_pdEmailCheck_ne _ _ (by decide),
      lookup_pdDobCheck_ne _ _ _ (by decide), pdMandatory_full_name]

theorem validate_errs_residential_address (pd : PersonalDetailsData) (today : PyDate) :
    lookupAssoc (pd.validate today).errors "residential_address" =
      if pd.residential_address = "" then some ["Residential Address is mandatory."] else none := by
  unfold PersonalDetailsData.validate
  rw [lookup_pdPhoneCheck_ne _ _ (by decide), lookup_pdEmailCheck_ne _ _ (by decide),
      lookup_pdDobCheck_ne _ _ _ (by decide), pdMandatory_residential_address]

theorem validate_errs_date_of_birth (pd : PersonalDetailsData) (today : PyDate) :
    lookupAssoc (pd.validate today).errors "date_of_birth" =
      if pd.date_of_birth = "" then some ["Date of Birth is mandatory."]
      else
        match parseDateYMD pd.date_of_birth with
        | some _ =>
          if Validator.is_future_date today pd.date_of_birth then
            some ["Date of birth cannot be in the future."]
          else none
        | none => some ["Invalid date of birth format. Please use YYYY-MM-DD."] := by
  unfold PersonalDetailsData.validate
  rw [lookup_pdPhoneCheck_ne _ _ (by decide), lookup_pdEmailCheck_ne _ _ (by decide)]
  have hm := pdMandatory_date_of_birth pd
  unfold pdDobCheck
  by_cases hd : pd.date_of_birth = ""
  · rw [if_neg (by simp [hd]), hm, if_pos hd, if_pos hd]
  · have hnone : lookupAssoc (pdMandatory pd).errors "date_of_birth" = none := by
      rw [hm, if_neg hd]
    rw [if_pos ⟨hd, by rw [hnone]; rfl⟩, if_neg hd]
    rcases hp : parseDateYMD pd.date_of_birth with _ | d
    · simp only [hp, ValidationResult.add_error, lookupAssoc_addMsg_self, hnone,
        Option.getD_none, List.nil_append]
    · simp only [hp]
      by_cases hf : Validator.is_future_date today pd.date_of_birth = true
      · simp only [hf, if_pos, ValidationResult.add_error, lookupAssoc_addMsg_self,
          hnone, Option.getD_none, List.nil_append, if_true]
      · simp only [hf, if_false, hnone, Bool.false_eq_true, ite_false]

theorem validate_errs_email (pd : PersonalDetailsData) (today : PyDate) :
    lookupAssoc (pd.validate today).errors "email" =
      if pd.email = "" then some ["Email is mandatory."]
      else if Validator.is_valid_email pd.email then none
      else some ["Please enter a valid email address."] := by
  unfold PersonalDetailsData.validate
  rw [lookup_pdPhoneCheck_ne _ _ (by decide)]
  have hm : lookupAssoc (pdDobCheck today pd (pdMandatory pd)).errors "email" =
      if pd.email = "" then some ["Email is mandatory."] else none := by
    rw [lookup_pdDobCheck_ne _ _ _ (by decide), pdMandatory_email]
  unfold pdEmailCheck
  by_cases he : pd.email = ""
  · rw [if_neg (by simp [he]), hm, if_pos he, if_pos he]
  · have hnone : lookupAssoc (pdDobCheck today pd (pdMandatory pd)).errors "email" = none := by
      rw [hm, if_neg he]
    rw [if_pos ⟨he, by rw [hnone]; rfl⟩, if_neg he]
    by_cases hv : Validator.is_valid_email pd.email = true
    · simp only [hv, if_true, hnone, if_pos]
    · simp only [hv, Bool.false_eq_true, if_false, ite_false, ValidationResult.add_error,
        lookupAssoc_addMsg_self, hnone, Option.getD_none, List.nil_append]

theorem validate_errs_phone_number (pd : PersonalDetailsData) (today : PyDate) :
    lookupAssoc (pd.validate today).errors "phone_number" =
      if pd.phone_number = "" then some ["Phone Number is mandatory."]
      else if Validator.is_valid_phone pd.phone_number then none
      else some ["Please enter a valid phone number."] := by
  unfold PersonalDetailsData.validate
  have hm : lookupAssoc (pdEmailCheck pd (pdDobCheck today pd (pdMandatory pd))).errors "phone_number" =
      if pd.phone_number = "" then some ["Phone Number is mandatory."] else none := by
    rw [lookup_pdEmailCheck_ne _ _ (by decide), lookup_pdDobCheck_ne _ _ _ (by decide),
        pdMandatory_phone_number]
  unfold pdPhoneCheck
  by_cases he : pd.phone_number = ""
  · rw [if_neg (by simp [he]), hm, if_pos he, if_pos he]
  · have hnone : lookupAssoc (pdEmailCheck pd (pdDobCheck today pd (pdMandatory pd))).errors "phone_number" = none := by
      rw [hm, if_neg he]
    rw [if_pos ⟨he, by rw [hnone]; rfl⟩, if_neg he]
    by_cases hv : Validator.is_valid_phone pd.phone_number = true
    · simp only [hv, if_true, hnone, if_pos]
    · simp only [hv, Bool.false_eq_true, if_false, ite_false, ValidationResult.add_error,
        lookupAssoc_addMsg_self, hnone, Option.getD_none, List.nil_append]

/-! ### Characterizing document validation -/

theorem docValidate_eq (doc : DocumentData) (f : String) :
    doc.validate f =
      if ACCEPTED_DOCUMENT_TYPES.contains doc.content_type then
        (if MAX_FILE_SIZE_MB * 1024 * 1024 < doc.size_bytes then
          ⟨false, [(f, [sizeMsg])]⟩
        else ⟨true, []⟩)
      else
        (if MAX_FILE_SIZE_MB * 1024 * 1024 < doc.size_bytes then
          ⟨false, [(f, [typeMsg doc.content_type, sizeMsg])]⟩
        else ⟨false, [(f, [typeMsg doc.content_type])]⟩) := by
  unfold DocumentData.validate
  by_cases ht : doc.content_type ∈ ACCEPTED_DOCUMENT_TYPES <;>
    by_cases hs : MAX_FILE_SIZE_MB * 1024 * 1024 < doc.size_bytes <;>
      simp [ht, hs, ValidationResult.add_error, addMsg, mkVR]

theorem combineDocs_doc_errors (p a : DocumentData) :
    (combineDocs (p.validate "primary_id_document")
        (a.validate "proof_of_address_document")).errors =
      (p.validate "primary_id_document").errors ++
        (a.validate "proof_of_address_document").errors := by
  rw [docValidate_eq p, docValidate_eq a]
  by_cases ht1 : p.content_type ∈ ACCEPTED_DOCUMENT_TYPES <;>
    by_cases hs1 : MAX_FILE_SIZE_MB * 1024 * 1024 < p.size_bytes <;>
      by_cases ht2 : a.content_type ∈ ACCEPTED_DOCUMENT_TYPES <;>
        by_cases hs2 : MAX_FILE_SIZE_MB * 1024 * 1024 < a.size_bytes <;>
          simp [ht1, hs1, ht2, hs2, combineDocs, mkVR, updateAssoc, setAssoc]

theorem combineDocs_doc_valid (p a : DocumentData) :
    (combineDocs (p.validate "primary_id_document")
        (a.validate "proof_of_address_document")).is_valid =
      ((p.validate "primary_id_document").is_valid &&
        (a.validate "proof_of_address_document").is_valid) := by
  rw [docValidate_eq p, docValidate_eq a]
  by_cases ht1 : p.content_type ∈ ACCEPTED_DOCUMENT_TYPES <;>
    by_cases hs1 : MAX_FILE_SIZE_MB * 1024 * 1024 < p.size_bytes <;>
      by_cases ht2 : a.content_type ∈ ACCEPTED_DOCUMENT_TYPES <;>
        by_cases hs2 : MAX_FILE_SIZE_MB * 1024 * 1024 < a.size_bytes <;>
          simp [ht1, hs1, ht2, hs2, combineDocs, mkVR, updateAssoc, setAssoc]

theorem lookup_doc_errors_flow (p a : DocumentData) :
    lookupAssoc
      ((p.validate "primary_id_document").errors ++
        (a.validate "proof_of_address_document").errors) "application_flow" = none := by
  rw [docValidate_eq p, docValidate_eq a]
  by_cases ht1 : p.content_type ∈ ACCEPTED_DOCUMENT_TYPES <;>
    by_cases hs1 : MAX_FILE_SIZE_MB * 1024 * 1024 < p.size_bytes <;>
      by_cases ht2 : a.content_type ∈ ACCEPTED_DOCUMENT_TYPES <;>
        by_cases hs2 : MAX_FILE_SIZE_MB * 1024 * 1024 < a.size_bytes <;>
          simp [ht1, hs1, ht2, hs2, lookupAssoc]

/-! ### Branch lemmas for the two submission methods -/

theorem submitPD_wrong_step (today : PyDate) (st : AppState) (f d r e p : String)
    (h : st.current_step ≠ "personal_details") :
    submit_personal_details today st f d r e p =
      (flowErr ("Currently on step: " ++ st.current_step ++ ". Cannot submit personal details."), st) := by
  unfold submit_personal_details
  rw [if_pos h]

theorem submitPD_invalid (today : PyDate) (st : AppState) (f d r e p : String)
    (hstep : st.current_step = "personal_details")
    (hv : ((PersonalDetailsData.mk f d r e p).validate today).is_valid = false) :
    submit_personal_details today st f d r e p =
      (invalidRes ((PersonalDetailsData.mk f d r e p).validate today).errors st.current_step, st) := by
  unfold submit_personal_details
  rw [if_neg (not_not_intro hstep)]
  simp only [hv, Bool.false_eq_true, if_false]

theorem submitPD_valid (today : PyDate) (st : AppState) (f d r e p : String)
    (hstep : st.current_step = "personal_details")
    (hv : ((PersonalDetailsData.mk f d r e p).validate today).is_valid = true) :
    submit_personal_details today st f d r e p =
      (successRes "Personal details successfully submitted." "id_verification",
       { st with
           current_step := "id_verification",
           personal_details_data := some ⟨f, d, r, e, p⟩,
           storage_personal_details := some ⟨f, d, r, e, p⟩ }) := by
  unfold submit_personal_details
  rw [if_neg (not_not_intro hstep)]
  simp only [hv, if_true]

theorem upload_wrong_step (st : AppState) (p a : DocumentData)
    (h : st.current_step ≠ "id_verification") :
    upload_identity_documents st p a =
      (flowErr ("Currently on step: " ++ st.current_step ++ ". Cannot upload documents."), st) := by
  unfold upload_identity_documents
  rw [if_pos h]

theorem upload_no_pd (st : AppState) (p a : DocumentData)
    (hstep : st.current_step = "id_verification")
    (hpd : st.personal_details_data = none) :
    upload_identity_documents st p a =
      (flowErr "Personal details must be completed first.", st) := by
  unfold upload_identity_documents
  rw [if_neg (not_not_intro hstep), if_pos hpd]

theorem upload_invalid (st : AppState) (p a : DocumentData)
    (hstep : st.current_step = "id_verification")
    (hpd : st.personal_details_data ≠ none)
    (hv : (combineDocs (p.validate "primary_id_document")
        (a.validate "proof_of_address_document")).is_valid = false) :
    upload_identity_documents st p a =
      (invalidRes (combineDocs (p.validate "primary_id_document")
          (a.validate "proof_of_address_document")).errors st.current_step, st) := by
  unfold upload_identity_documents
  rw [if_neg (not_not_intro hstep), if_neg hpd]
  simp only [hv, Bool.false_eq_true, if_false]

theorem upload_valid (st : AppState) (p a : DocumentData)
    (hstep : st.current_step = "id_verification")
    (hpd : st.personal_details_data ≠ none)
    (hv : (combineDocs (p.validate "primary_id_document")
        (a.validate "proof_of_address_document")).is_valid = true) :
    upload_identity_documents st p a =
      (successRes "Documents uploaded successfully. Proceeding to review." "review_and_submit",
       { st with
           current_step := "review_and_submit",
           primary_id_document := some p,
           proof_of_address_document := some a,
           storage_documents := some (p, a) }) := by
  unfold upload_identity_documents
  rw [if_neg (not_not_intro hstep), if_neg hpd]
  simp only [hv, if_true]

/-! ### Step monotonicity and the reachability invariant -/

theorem applyOp_stepOrder (today : PyDate) (st : AppState) (op : AppOp) :
    stepOrder st.current_step ≤ stepOrder (applyOp today st op).2.current_step := by
  cases op with
  | submitPD f d r e p =>
    by_cases hstep : st.current_step = "personal_details"
    · by_cases hv : ((PersonalDetailsData.mk f d r e p).validate today).is_valid = true
      · simp only [applyOp, submitPD_valid today st f d r e p hstep hv]
        rw [hstep]
        decide
      · have hv' : ((PersonalDetailsData.mk f d r e p).validate today).is_valid = false := by
          revert hv
          cases ((PersonalDetailsData.mk f d r e p).validate today).is_valid <;> simp
        simp only [applyOp, submitPD_invalid today st f d r e p hstep hv']
        exact Nat.le_refl _
    · simp only [applyOp, submitPD_wrong_step today st f d r e p hstep]
      exact Nat.le_refl _
  | uploadDocs p a =>
    by_cases hstep : st.current_step = "id_verification"
    · by_cases hpd : st.personal_details_data = none
      · simp only [applyOp, upload_no_pd st p a hstep hpd]
        exact Nat.le_refl _
      · by_cases hv : (combineDocs (p.validate "primary_id_document")
            (a.validate "proof_of_address_document")).is_valid = true
        · simp only [applyOp, upload_valid st p a hstep hpd hv]
          rw [hstep]
          decide
        · have hv' : (combineDocs (p.validate "primary_id_document")
              (a.validate "proof_of_address_document")).is_valid = false := by
            revert hv
            cases (combineDocs (p.validate "primary_id_document")
              (a.validate "proof_of_address_document")).is_valid <;> simp
          simp only [applyOp, upload_invalid st p a hstep hpd hv']
          exact Nat.le_refl _
    · simp only [applyOp, upload_wrong_step st p a hstep]
      exact Nat.le_refl _

theorem runOps_stepOrder (today : PyDate) (ops : List AppOp) :
    ∀ st : AppState, stepOrder st.current_step ≤ stepOrder (runOps today st ops).current_step := by
  induction ops with
  | nil => intro st; exact Nat.le_refl _
  | cons op t ih =>
    intro st
    exact Nat.le_trans (applyOp_stepOrder today st op) (ih (applyOp today st op).2)

theorem applyOp_reachInv (today : PyDate) (st : AppState) (op : AppOp)
    (h : reachInv st) : reachInv (applyOp today st op).2 := by
  cases op with
  | submitPD f d r e p =>
    by_cases hstep : st.current_step = "personal_details"
    · by_cases hv : ((PersonalDetailsData.mk f d r e p).validate today).is_valid = true
      · simp only [applyOp, submitPD_valid today st f d r e p hstep hv]
        exact ⟨Or.inr (Or.inl rfl), fun _ => by simp⟩
      · have hv' : ((PersonalDetailsData.mk f d r e p).validate today).is_valid = false := by
          revert hv
          cases ((PersonalDetailsData.mk f d r e p).validate today).is_valid <;> simp
        simp only [applyOp, submitPD_invalid today st f d r e p hstep hv']
        exact h
    · simp only [applyOp, submitPD_wrong_step today st f d r e p hstep]
      exact h
  | uploadDocs p a =>
    by_cases hstep : st.current_step = "id_verification"
    · by_cases hpd : st.personal_details_data = none
      · simp only [applyOp, upload_no_pd st p a hstep hpd]
        exact h
      · by_cases hv : (combineDocs (p.validate "primary_id_document")
            (a.validate "proof_of_address_document")).is_valid = true
        · simp only [applyOp, upload_valid st p a hstep hpd hv]
          exact ⟨Or.inr (Or.inr rfl), fun _ => hpd⟩
        · have hv' : (combineDocs (p.validate "primary_id_document")
              (a.validate "proof_of_address_document")).is_valid = false := by
            revert hv
            cases (combineDocs (p.validate "primary_id_document")
              (a.validate "proof_of_address_document")).is_valid <;> simp
          simp only [applyOp, upload_invalid st p a hstep hpd hv']
          exact h
    · simp only [applyOp, upload_wrong_step st p a hstep]
      exact h

theorem runOps_reachInv_aux (today : PyDate) (ops : List AppOp) :
    ∀ st : AppState, reachInv st → reachInv (runOps today st ops) := by
  induction ops with
  | nil => intro st h; exact h
  | cons op t ih =>
    intro st h
    exact ih (applyOp today st op).2 (applyOp_reachInv today st op h)

theorem runOps_reachInv (today : PyDate) (ops : List AppOp) :
    reachInv (runOps today initApp ops) :=
  runOps_reachInv_aux today ops initApp ⟨Or.inl rfl, fun hc => absurd rfl hc⟩

/-! ### The phone regex against the specified character set -/

theorem phoneClass_ne_plus {c : Char} (h : Validator.phoneClass c = true) : c ≠ '+' := by
  intro hc
  rw [hc] at h
  exact absurd h (by decide)

theorem phoneBodyMatch_iff (r : List Char) :
    Validator.phoneBodyMatch r = true ↔
      ∃ body tail : List Char, r = body ++ tail ∧ 7 ≤ body.length ∧
        body.length ≤ 15 ∧ (∀ c ∈ body, Validator.phoneClass c = true) ∧
        (tail = [] ∨ tail = ['\n']) := by
  unfold Validator.phoneBodyMatch
  constructor
  · intro h
    simp only [Bool.or_eq_true, Bool.and_eq_true, decide_eq_true_eq,
      List.all_eq_true, beq_iff_eq] at h
    rcases h with ⟨⟨h7, h15⟩, hall⟩ | ⟨⟨⟨h8, h16⟩, hall⟩, hlast⟩
    · exact ⟨r, [], (List.append_nil r).symm, h7, h15, hall, Or.inl rfl⟩
    · have hne : r ≠ [] := by
        intro hr
        rw [hr] at h8
        simp at h8
      have hsplit := List.dropLast_append_getLast hne
      rw [List.getLast?_eq_getLast r hne] at hlast
      have hlast' : r.getLast hne = '\n' := Option.some.inj hlast
      refine ⟨r.dropLast, ['\n'], ?_, ?_, ?_, hall, Or.inr rfl⟩
      · rw [← hlast', hsplit]
      · rw [List.length_dropLast]; omega
      · rw [List.length_dropLast]; omega
  · rintro ⟨body, tail, heq, h7, h15, hall, htail | htail⟩
    · subst htail
      rw [List.append_nil] at heq
      subst heq
      simp only [Bool.or_eq_true, Bool.and_eq_true, decide_eq_true_eq, List.all_eq_true]
      exact Or.inl ⟨⟨h7, h15⟩, hall⟩
    · subst htail
      subst heq
      simp only [Bool.or_eq_true, Bool.and_eq_true, decide_eq_true_eq,
        List.all_eq_true, beq_iff_eq, List.length_append, List.length_cons,
        List.length_nil, List.dropLast_concat, List.getLast?_concat]
      exact Or.inr ⟨⟨⟨by omega, by omega⟩, hall⟩, trivial⟩

/-- Claim C9 (amended): the phone check accepts exactly the strings made of
an optional leading plus and 7 to 15 characters from the class consisting of
the decimal digits, any whitespace character and the hyphen, optionally
followed by one final newline that the end anchor tolerates. -/
theorem C9_phone_shape_amended (s : String) :
    Validator.is_valid_phone s = true ↔ phoneSpecAmended s := by
  unfold Validator.is_valid_phone phoneSpecAmended
  rcases hcs : s.toList with _ | ⟨c, t⟩
  · constructor
    · intro h
      rw [show Validator.phoneTail [] = [] from rfl] at h
      exact absurd h (by decide)
    · rintro ⟨body, tail, h | h, h7, _, _, _⟩
      · have := congrArg List.length h
        simp only [List.length_nil, List.length_append] at this
        omega
      · nomatch h
  · by_cases hc : c = '+'
    · subst hc
      have hpt : Validator.phoneTail ('+' :: t) = t := by
        simp [Validator.phoneTail]
      rw [hpt, phoneBodyMatch_iff]
      constructor
      · rintro ⟨body, tail, heq, h7, h15, hall, htail⟩
        exact ⟨body, tail, Or.inr (congrArg (List.cons '+') heq), h7, h15, hall, htail⟩
      · rintro ⟨body, tail, h | h, h7, h15, hall, htail⟩
        · have hbody : body ≠ [] := by
            intro hb
            rw [hb] at h7
            simp at h7
          obtain ⟨b0, body', rfl⟩ := List.exists_cons_of_ne_nil hbody
          rw [List.cons_append] at h
          injection h with h1 _
          exact absurd h1.symm (phoneClass_ne_plus (hall b0 (List.mem_cons_self b0 body')))
        · injection h with _ h2
          exact ⟨body, tail, h2, h7, h15, hall, htail⟩
    · have hpt : Validator.phoneTail (c :: t) = c :: t := by
        simp [Validator.phoneTail, hc]
      rw [hpt, phoneBodyMatch_iff]
      constructor
      · rintro ⟨body, tail, heq, h7, h15, hall, htail⟩
        exact ⟨body, tail, Or.inl heq, h7, h15, hall, htail⟩
      · rintro ⟨body, tail, h | h, h7, h15, hall, htail⟩
        · exact ⟨body, tail, h, h7, h15, hall, htail⟩
        · injection h with h1 _
          exact absurd h1 hc

theorem lookupAssoc_map_el (l : List (String × List String)) (k : String) :
    lookupAssoc (l.map fun p => (p.1, PyErr.el p.2)) k =
      (lookupAssoc l k).map PyErr.el := by
  induction l with
  | nil => rfl
  | cons hd t ih =>
    obtain ⟨k0, v⟩ := hd
    by_cases hk : k = k0 <;> simp [lookupAssoc, hk, ih]

theorem bool_ne_true_eq_false {b : Bool} (h : ¬b = true) : b = false := by
  revert h
  cases b <;> simp

theorem upload_no_missing_pd_err (st : AppState) (d1 d2 : DocumentData)
    (h : reachInv st) :
    errVal (upload_identity_documents st d1 d2).1 "application_flow" ≠
      some (PyErr.es "Personal details must be completed first.") := by
  by_cases hstep : st.current_step = "id_verification"
  · have hpd : st.personal_details_data ≠ none := h.2 (by rw [hstep]; decide)
    by_cases hv : (combineDocs (d1.validate "primary_id_document")
        (d2.validate "proof_of_address_document")).is_valid = true
    · rw [upload_valid st d1 d2 hstep hpd hv]
      simp [errVal, successRes, lookupAssoc]
    · rw [upload_invalid st d1 d2 hstep hpd (bool_ne_true_eq_false hv)]
      have hlook : errVal (invalidRes (combineDocs (d1.validate "primary_id_document")
          (d2.validate "proof_of_address_document")).errors st.current_step, st).1
          "application_flow" =
          (lookupAssoc (combineDocs (d1.validate "primary_id_document")
            (d2.validate "proof_of_address_document")).errors "application_flow").map PyErr.el := by
        simp [errVal, invalidRes, lookupAssoc, lookupAssoc_map_el]
      rw [hlook, combineDocs_doc_errors, lookup_doc_errors_flow]
      simp
  · rcases h.1 with h1 | h1 | h1
    · rw [upload_wrong_step st d1 d2 hstep, h1]
      show errVal (flowErr ("Currently on step: " ++ "personal_details" ++
          ". Cannot upload documents.")) "application_flow" ≠
        some (PyErr.es "Personal details must be completed first.")
      decide
    · exact absurd h1 hstep
    · rw [upload_wrong_step st d1 d2 hstep, h1]
      show errVal (flowErr ("Currently on step: " ++ "review_and_submit" ++
          ". Cannot upload documents.")) "application_flow" ≠
        some (PyErr.es "Personal details must be completed first.")
      decide

/-! ### Claims -/

/-- Claim C1: over every sequence of submissions the current step only moves
forward along personal_details, id_verification, review_and_submit: a
successful personal-details submission moves the first to the second, a
successful document upload moves the second to the third, no sequence of
operations ever lowers the step position, and on the terminal step both
operations are rejected with a wrong-step flow error and an unchanged state. -/
theorem C1_step_monotonicity (today : PyDate) :
    (∀ (st : AppState) (f d r e p : String),
        st.current_step = "personal_details" →
        resSuccess (submit_personal_details today st f d r e p).1 = true →
        (submit_personal_details today st f d r e p).2.current_step = "id_verification") ∧
    (∀ (st : AppState) (d1 d2 : DocumentData),
        st.current_step = "id_verification" →
        resSuccess (upload_identity_documents st d1 d2).1 = true →
        (upload_identity_documents st d1 d2).2.current_step = "review_and_submit") ∧
    (∀ (st : AppState) (ops : List AppOp),
        stepOrder st.current_step ≤ stepOrder (runOps today st ops).current_step) ∧
    (∀ (st : AppState) (op : AppOp),
        st.current_step = "review_and_submit" →
        applyOp today st op = (flowErr (wrongStepMsg st op), st)) := by
  refine ⟨?_, ?_, ?_, ?_⟩
  · intro st f d r e p hstep hsucc
    by_cases hv : ((PersonalDetailsData.mk f d r e p).validate today).is_valid = true
    · rw [submitPD_valid today st f d r e p hstep hv]
    · rw [submitPD_invalid today st f d r e p hstep (bool_ne_true_eq_false hv)] at hsucc
      exact absurd hsucc (by simp [resSuccess_invalidRes])
  · intro st d1 d2 hstep hsucc
    by_cases hpd : st.personal_details_data = none
    · rw [upload_no_pd st d1 d2 hstep hpd] at hsucc
      exact absurd hsucc (by simp [resSuccess_flowErr])
    · by_cases hv : (combineDocs (d1.validate "primary_id_document")
          (d2.validate "proof_of_address_document")).is_valid = true
      · rw [upload_valid st d1 d2 hstep hpd hv]
      · rw [upload_invalid st d1 d2 hstep hpd (bool_ne_true_eq_false hv)] at hsucc
        exact absurd hsucc (by simp [resSuccess_invalidRes])
  · intro st ops
    exact runOps_stepOrder today ops st
  · intro st op hstep
    cases op with
    | submitPD f d r e p =>
      exact submitPD_wrong_step today st f d r e p (by rw [hstep]; decide)
    | uploadDocs p a =>
      exact upload_wrong_step st p a (by rw [hstep]; decide)

/-- Witness for C1 at concrete inputs: the Alice submission from the initial
state advances to id_verification, a valid upload from there advances to
review_and_submit, a run never lowers the step position, and from the
terminal step a submission is rejected without a state change. -/
theorem C1_step_monotonicity_witness :
    (submit_personal_details t0 initApp "Alice Wonderland" "1990-01-15"
        "123 Rabbit Hole, Wonderland, WN1 2AB" "alice@wonderland.com"
        "+447123456789").2.current_step = "id_verification" ∧
    (upload_identity_documents (runOps t0 initApp [aliceOp]) jpegDoc
        pdfDoc).2.current_step = "review_and_submit" ∧
    stepOrder initApp.current_step ≤
      stepOrder (runOps t0 initApp [aliceOp]).current_step ∧
    applyOp t0 ⟨"review_and_submit", none, none, none, none, none⟩ aliceOp =
      (flowErr "Currently on step: review_and_submit. Cannot submit personal details.",
       ⟨"review_and_submit", none, none, none, none, none⟩) :=
  ⟨(C1_step_monotonicity t0).1 initApp "Alice Wonderland" "1990-01-15"
      "123 Rabbit Hole, Wonderland, WN1 2AB" "alice@wonderland.com"
      "+447123456789" rfl (by decide),
   (C1_step_monotonicity t0).2.1 (runOps t0 initApp [aliceOp]) jpegDoc pdfDoc
      (by decide) (by decide),
   (C1_step_monotonicity t0).2.2.1 initApp [aliceOp],
   (C1_step_monotonicity t0).2.2.2 ⟨"review_and_submit", none, none, none, none, none⟩
      aliceOp rfl⟩

/-- Claim C2: a submission whose field validation fails leaves the entire
instance state (step, committed records, secure storage) unchanged and
returns the validation errors with the unchanged step, and resubmitting the
same payload any number of times returns the same result from the same
state. -/
theorem C2_invalid_rejection_frame (today : PyDate) (st : AppState) (op : AppOp)
    (hstep : opTarget op = st.current_step) (hready : opReady st op)
    (hv : (opValidation today op).is_valid = false) :
    applyOp today st op =
      (invalidRes (opValidation today op).errors st.current_step, st) ∧
    ∀ n : Nat, iterOp today op n st =
      (invalidRes (opValidation today op).errors st.current_step, st) := by
  have hmain : applyOp today st op =
      (invalidRes (opValidation today op).errors st.current_step, st) := by
    cases op with
    | submitPD f d r e p => exact submitPD_invalid today st f d r e p hstep.symm hv
    | uploadDocs p a => exact upload_invalid st p a hstep.symm hready hv
  have hst : (applyOp today st op).2 = st := by rw [hmain]
  refine ⟨hmain, ?_⟩
  intro n
  induction n with
  | zero => exact hmain
  | succ k ih =>
    show iterOp today op (k + 1) st = _
    rw [iterOp, hst]
    exact ih

/-- Witness for C2: the Bob submission with an empty residential address is
rejected, leaves the fresh instance unchanged, and six repetitions return the
identical error result. -/
theorem C2_invalid_rejection_frame_witness :
    applyOp t0 initApp (AppOp.submitPD "Bob The Builder" "1985-05-20" ""
        "bob@builder.com" "+15551234567") =
      (invalidRes (opValidation t0 (AppOp.submitPD "Bob The Builder" "1985-05-20" ""
        "bob@builder.com" "+15551234567")).errors "personal_details", initApp) ∧
    iterOp t0 (AppOp.submitPD "Bob The Builder" "1985-05-20" ""
        "bob@builder.com" "+15551234567") 5 initApp =
      (invalidRes (opValidation t0 (AppOp.submitPD "Bob The Builder" "1985-05-20" ""
        "bob@builder.com" "+15551234567")).errors "personal_details", initApp) :=
  ⟨(C2_invalid_rejection_frame t0 initApp (AppOp.submitPD "Bob The Builder"
      "1985-05-20" "" "bob@builder.com" "+15551234567") rfl trivial (by decide)).1,
   (C2_invalid_rejection_frame t0 initApp (AppOp.submitPD "Bob The Builder"
      "1985-05-20" "" "bob@builder.com" "+15551234567") rfl trivial (by decide)).2 5⟩

/-- Claim C3: every string the date parser rejects is treated as a future
date, so `is_future_date` returns true on it. -/
theorem C3_unparseable_is_future (today : PyDate) (s : String)
    (h : parseDateYMD s = none) : Validator.is_future_date today s = true := by
  unfold Validator.is_future_date
  rw [h]

/-- Witness for C3: the string not-a-date does not parse and is reported as a
future date, while the space-padded day string 1990-01- 5, which CPython's
day pattern does parse, is outside the claim's domain and is reported as a
past date. -/
theorem C3_unparseable_is_future_witness :
    parseDateYMD "not-a-date" = none ∧
    Validator.is_future_date t0 "not-a-date" = true ∧
    parseDateYMD "1990-01- 5" = some ⟨1990, 1, 5⟩ ∧
    Validator.is_future_date t0 "1990-01- 5" = false :=
  ⟨by decide, C3_unparseable_is_future t0 "not-a-date" (by decide),
   by decide, by decide⟩

/-- Counterexample to C4 as stated: at a wrong-step upload from the fresh
instance, the flow-error result carries success false and the reserved
application_flow key, but contains no current_step key at all, whereas the
claim asserts the result shape includes the current step. -/
theorem C4_counterexample :
    lookupAssoc (upload_identity_documents initApp jpegDoc pdfDoc).1 "current_step" = none ∧
    resSuccess (upload_identity_documents initApp jpegDoc pdfDoc).1 = false ∧
    errVal (upload_identity_documents initApp jpegDoc pdfDoc).1 "application_flow" =
      some (PyErr.es "Currently on step: personal_details. Cannot upload documents.") := by
  decide

/-- Claim C4 (amended): a submission targeting a step other than the current
one fails immediately with the flow-error result carrying success false and
the wrong-step message under the reserved application_flow key but no
current_step key, the state is not mutated, and the result is independent of
the payload, so the validation engine is never consulted. -/
theorem C4_wrong_step_flow_error (today : PyDate) (st : AppState) (op : AppOp)
    (h : opTarget op ≠ st.current_step) :
    applyOp today st op = (flowErr (wrongStepMsg st op), st) ∧
    lookupAssoc (applyOp today st op).1 "current_step" = none ∧
    ∀ op' : AppOp, opTarget op' = opTarget op →
      applyOp today st op' = applyOp today st op := by
  have hmain : ∀ op'' : AppOp, opTarget op'' = opTarget op →
      applyOp today st op'' = (flowErr (wrongStepMsg st op''), st) := by
    intro op'' hsame
    cases op with
    | submitPD f d r e p =>
      cases op'' with
      | submitPD f' d' r' e' p' =>
        exact submitPD_wrong_step today st f' d' r' e' p' (Ne.symm h)
      | uploadDocs p' a' => simp [opTarget] at hsame
    | uploadDocs p a =>
      cases op'' with
      | submitPD f' d' r' e' p' => simp [opTarget] at hsame
      | uploadDocs p' a' =>
        exact upload_wrong_step st p' a' (Ne.symm h)
  have h1 := hmain op rfl
  refine ⟨h1, ?_, ?_⟩
  · rw [h1]
    cases op <;> rfl
  · intro op' hsame
    rw [hmain op' hsame, h1]
    cases op <;> cases op' <;> first | rfl | simp [opTarget] at hsame

/-- Witness for C4: uploading from the fresh instance, whose step is
personal_details, yields exactly the wrong-step flow error with the state
unchanged, and the same result for a different payload. -/
theorem C4_wrong_step_flow_error_witness :
    applyOp t0 initApp (AppOp.uploadDocs jpegDoc pdfDoc) =
      (flowErr "Currently on step: personal_details. Cannot upload documents.", initApp) ∧
    lookupAssoc (applyOp t0 initApp (AppOp.uploadDocs jpegDoc pdfDoc)).1 "current_step" = none ∧
    applyOp t0 initApp (AppOp.uploadDocs badDoc badDoc) =
      applyOp t0 initApp (AppOp.uploadDocs jpegDoc pdfDoc) :=
  ⟨(C4_wrong_step_flow_error t0 initApp (AppOp.uploadDocs jpegDoc pdfDoc) (by decide)).1,
   (C4_wrong_step_flow_error t0 initApp (AppOp.uploadDocs jpegDoc pdfDoc) (by decide)).2.1,
   (C4_wrong_step_flow_error t0 initApp (AppOp.uploadDocs jpegDoc pdfDoc) (by decide)).2.2
     (AppOp.uploadDocs badDoc badDoc) rfl⟩

/-- Claim C5: independently violated rules on distinct fields are all
reported in one validation report: a future date of birth, an email the email
check rejects and a phone the phone check rejects produce their three error
entries simultaneously. -/
theorem C5_error_completeness (today : PyDate) (pd : PersonalDetailsData)
    (dt : PyDate) (hdob : parseDateYMD pd.date_of_birth = some dt)
    (hfut : dateLt today dt = true)
    (hemail : pd.email ≠ "") (hbademail : Validator.is_valid_email pd.email = false)
    (hphone : pd.phone_number ≠ "")
    (hbadphone : Validator.is_valid_phone pd.phone_number = false) :
    lookupAssoc (pd.validate today).errors "date_of_birth" =
      some ["Date of birth cannot be in the future."] ∧
    lookupAssoc (pd.validate today).errors "email" =
      some ["Please enter a valid email address."] ∧
    lookupAssoc (pd.validate today).errors "phone_number" =
      some ["Please enter a valid phone number."] := by
  have hdne : pd.date_of_birth ≠ "" := by
    intro hd
    rw [hd, show parseDateYMD "" = none from by decide] at hdob
    exact Option.noConfusion hdob
  have hf : Validator.is_future_date today pd.date_of_birth = true := by
    unfold Validator.is_future_date
    rw [hdob]
    exact hfut
  refine ⟨?_, ?_, ?_⟩
  · rw [validate_errs_date_of_birth, if_neg hdne, hdob]
    simp only [hf, if_true]
  · rw [validate_errs_email, if_neg hemail]
    simp [hbademail]
  · rw [validate_errs_phone_number, if_neg hphone]
    simp [hbadphone]

/-- Witness for C5: the Charlie scenario, with date of birth 2050-12-25,
email charlie.com and phone not-a-phone, reports all three errors in one
result. -/
theorem C5_error_completeness_witness :
    lookupAssoc ((PersonalDetailsData.mk "Charlie Chaplin" "2050-12-25"
        "456 Silent Film St, Hollywood, CA 90028" "charlie.com"
        "not-a-phone").validate t0).errors "date_of_birth" =
      some ["Date of birth cannot be in the future."] ∧
    lookupAssoc ((PersonalDetailsData.mk "Charlie Chaplin" "2050-12-25"
        "456 Silent Film St, Hollywood, CA 90028" "charlie.com"
        "not-a-phone").validate t0).errors "email" =
      some ["Please enter a valid email address."] ∧
    lookupAssoc ((PersonalDetailsData.mk "Charlie Chaplin" "2050-12-25"
        "456 Silent Film St, Hollywood, CA 90028" "charlie.com"
        "not-a-phone").validate t0).errors "phone_number" =
      some ["Please enter a valid phone number."] :=
  C5_error_completeness t0 _ ⟨2050, 12, 25⟩ (by decide) (by decide) (by decide)
    (by decide) (by decide) (by decide)

/-- Counterexample to C6 as stated: for the Bob submission with an empty
residential address, the failure result holds exactly the keys success,
errors and current_step, and no value of the result echoes the submitted
full name, so the caller's original input fields are not echoed back. -/
theorem C6_counterexample :
    ((submit_personal_details t0 initApp "Bob The Builder" "1985-05-20" ""
        "bob@builder.com" "+15551234567").1).map Prod.fst =
      ["success", "errors", "current_step"] ∧
    (((submit_personal_details t0 initApp "Bob The Builder" "1985-05-20" ""
        "bob@builder.com" "+15551234567").1).map Prod.snd).all
      (fun v => v != PyVal.vs "Bob The Builder") = true := by
  decide

/-- Claim C6 (amended): a submission that fails field validation returns
exactly success false, the error map and the unchanged current step, and
nothing else: the caller's original input fields are not part of the
result. -/
theorem C6_invalid_result_no_echo (today : PyDate) (st : AppState) :
    (∀ f d r e p : String, st.current_step = "personal_details" →
        ((PersonalDetailsData.mk f d r e p).validate today).is_valid = false →
        (submit_personal_details today st f d r e p).1 =
          invalidRes ((PersonalDetailsData.mk f d r e p).validate today).errors
            st.current_step ∧
        ((submit_personal_details today st f d r e p).1).map Prod.fst =
          ["success", "errors", "current_step"]) ∧
    (∀ d1 d2 : DocumentData, st.current_step = "id_verification" →
        st.personal_details_data ≠ none →
        (combineDocs (d1.validate "primary_id_document")
          (d2.validate "proof_of_address_document")).is_valid = false →
        (upload_identity_documents st d1 d2).1 =
          invalidRes (combineDocs (d1.validate "primary_id_document")
            (d2.validate "proof_of_address_document")).errors st.current_step ∧
        ((upload_identity_documents st d1 d2).1).map Prod.fst =
          ["success", "errors", "current_step"]) := by
  constructor
  · intro f d r e p hstep hv
    rw [submitPD_invalid today st f d r e p hstep hv]
    exact ⟨rfl, rfl⟩
  · intro d1 d2 hstep hpd hv
    rw [upload_invalid st d1 d2 hstep hpd hv]
    exact ⟨rfl, rfl⟩

/-- Witness for C6: the Bob submission is returned as exactly the
success-errors-current_step dictionary. -/
theorem C6_invalid_result_no_echo_witness :
    (submit_personal_details t0 initApp "Bob The Builder" "1985-05-20" ""
        "bob@builder.com" "+15551234567").1 =
      invalidRes ((PersonalDetailsData.mk "Bob The Builder" "1985-05-20" ""
        "bob@builder.com" "+15551234567").validate t0).errors "personal_details" ∧
    ((submit_personal_details t0 initApp "Bob The Builder" "1985-05-20" ""
        "bob@builder.com" "+15551234567").1).map Prod.fst =
      ["success", "errors", "current_step"] :=
  (C6_invalid_result_no_echo t0 initApp).1 "Bob The Builder" "1985-05-20" ""
    "bob@builder.com" "+15551234567" rfl (by decide)

/-- Claim C7: an absent or empty required field of the personal-details step
is reported with exactly its mandatory message and nothing else for that
field, so no format or semantic check runs on a mandatory-missing field. -/
theorem C7_mandatory_only (today : PyDate) (pd : PersonalDetailsData) :
    (pd.full_name = "" →
      lookupAssoc (pd.validate today).errors "full_name" =
        some ["Full Name is mandatory."]) ∧
    (pd.date_of_birth = "" →
      lookupAssoc (pd.validate today).errors "date_of_birth" =
        some ["Date of Birth is mandatory."]) ∧
    (pd.residential_address = "" →
      lookupAssoc (pd.validate today).errors "residential_address" =
        some ["Residential Address is mandatory."]) ∧
    (pd.email = "" →
      lookupAssoc (pd.validate today).errors "email" =
        some ["Email is mandatory."]) ∧
    (pd.phone_number = "" →
      lookupAssoc (pd.validate today).errors "phone_number" =
        some ["Phone Number is mandatory."]) := by
  refine ⟨?_, ?_, ?_, ?_, ?_⟩ <;> intro h
  · rw [validate_errs_full_name, if_pos h]
  · rw [validate_errs_date_of_birth, if_pos h]
  · rw [validate_errs_residential_address, if_pos h]
  · rw [validate_errs_email, if_pos h]
  · rw [validate_errs_phone_number, if_pos h]

/-- Witness for C7: the all-empty submission yields exactly the five
mandatory messages, one per field. -/
theorem C7_mandatory_only_witness :
    lookupAssoc ((PersonalDetailsData.mk "" "" "" "" "").validate t0).errors
      "full_name" = some ["Full Name is mandatory."] ∧
    lookupAssoc ((PersonalDetailsData.mk "" "" "" "" "").validate t0).errors
      "date_of_birth" = some ["Date of Birth is mandatory."] ∧
    lookupAssoc ((PersonalDetailsData.mk "" "" "" "" "").validate t0).errors
      "residential_address" = some ["Residential Address is mandatory."] ∧
    lookupAssoc ((PersonalDetailsData.mk "" "" "" "" "").validate t0).errors
      "email" = some ["Email is mandatory."] ∧
    lookupAssoc ((PersonalDetailsData.mk "" "" "" "" "").validate t0).errors
      "phone_number" = some ["Phone Number is mandatory."] :=
  ⟨(C7_mandatory_only t0 _).1 rfl, (C7_mandatory_only t0 _).2.1 rfl,
   (C7_mandatory_only t0 _).2.2.1 rfl, (C7_mandatory_only t0 _).2.2.2.1 rfl,
   (C7_mandatory_only t0 _).2.2.2.2 rfl⟩

/-- Claim C8: document validation flags a media type outside the allow-list
image/jpeg, image/png, application/pdf, independently flags a size above
5 MiB while accepting exactly 5 MiB, stacks both messages under the one field
key when both are violated, and a two-document upload validates each document
under its own namespaced key and merges both error maps into one report. -/
theorem C8_document_rules :
    (∀ (doc : DocumentData) (f : String),
        doc.content_type ∉ ["image/jpeg", "image/png", "application/pdf"] →
        ∃ msgs, lookupAssoc (doc.validate f).errors f = some msgs ∧
          typeMsg doc.content_type ∈ msgs) ∧
    (∀ (doc : DocumentData) (f : String),
        5 * 1024 * 1024 < doc.size_bytes →
        ∃ msgs, lookupAssoc (doc.validate f).errors f = some msgs ∧
          sizeMsg ∈ msgs) ∧
    (∀ (doc : DocumentData) (f : String),
        doc.size_bytes ≤ 5 * 1024 * 1024 →
        doc.validate f =
          if doc.content_type ∈ ["image/jpeg", "image/png", "application/pdf"] then
            ⟨true, []⟩
          else ⟨false, [(f, [typeMsg doc.content_type])]⟩) ∧
    (∀ (doc : DocumentData) (f : String),
        doc.content_type ∉ ["image/jpeg", "image/png", "application/pdf"] →
        5 * 1024 * 1024 < doc.size_bytes →
        (doc.validate f).errors = [(f, [typeMsg doc.content_type, sizeMsg])]) ∧
    (∀ (st : AppState) (p a : DocumentData),
        st.current_step = "id_verification" → st.personal_details_data ≠ none →
        (combineDocs (p.validate "primary_id_document")
          (a.validate "proof_of_address_document")).is_valid = false →
        (upload_identity_documents st p a).1 =
          invalidRes ((p.validate "primary_id_document").errors ++
            (a.validate "proof_of_address_document").errors) st.current_step) := by
  refine ⟨?_, ?_, ?_, ?_, ?_⟩
  · intro doc f hmem
    have hmem' : doc.content_type ∉ ACCEPTED_DOCUMENT_TYPES := hmem
    rw [docValidate_eq doc f]
    by_cases hs : MAX_FILE_SIZE_MB * 1024 * 1024 < doc.size_bytes
    · exact ⟨[typeMsg doc.content_type, sizeMsg], by simp [hmem', hs, lookupAssoc],
        by simp⟩
    · exact ⟨[typeMsg doc.content_type], by simp [hmem', hs, lookupAssoc], by simp⟩
  · intro doc f hsize
    have hs : MAX_FILE_SIZE_MB * 1024 * 1024 < doc.size_bytes := hsize
    rw [docValidate_eq doc f]
    by_cases hmem : doc.content_type ∈ ACCEPTED_DOCUMENT_TYPES
    · exact ⟨[sizeMsg], by simp [hmem, hs, lookupAssoc], by simp⟩
    · exact ⟨[typeMsg doc.content_type, sizeMsg], by simp [hmem, hs, lookupAssoc],
        by simp⟩
  · intro doc f hsize
    have hs : ¬(MAX_FILE_SIZE_MB * 1024 * 1024 < doc.size_bytes) := by
      simp only [MAX_FILE_SIZE_MB]
      omega
    rw [docValidate_eq doc f]
    by_cases hmem : doc.content_type ∈ ACCEPTED_DOCUMENT_TYPES
    · have hmem2 : doc.content_type ∈ ["image/jpeg", "image/png", "application/pdf"] := hmem
      simp [hmem, hmem2, hs]
    · have hmem2 : doc.content_type ∉ ["image/jpeg", "image/png", "application/pdf"] := hmem
      simp [hmem, hmem2, hs]
  · intro doc f hmem hsize
    have hmem' : doc.content_type ∉ ACCEPTED_DOCUMENT_TYPES := hmem
    have hs : MAX_FILE_SIZE_MB * 1024 * 1024 < doc.size_bytes := hsize
    rw [docValidate_eq doc f]
    simp [hmem', hs]
  · intro st p a hstep hpd hv
    rw [upload_invalid st p a hstep hpd hv]
    simp only [combineDocs_doc_errors]

/-- Witness for C8: the 6 MiB msword descriptor is flagged for both rules
under its one key, the exactly-5-MiB JPEG passes, and a mixed upload from a
state on id_verification reports both documents in one merged error map. -/
theorem C8_document_rules_witness :
    (∃ msgs, lookupAssoc (badDoc.validate "primary_id_document").errors
        "primary_id_document" = some msgs ∧ typeMsg "application/msword" ∈ msgs) ∧
    (∃ msgs, lookupAssoc (badDoc.validate "primary_id_document").errors
        "primary_id_document" = some msgs ∧ sizeMsg ∈ msgs) ∧
    (DocumentData.mk "passport.jpg" "image/jpeg" (5 * 1024 * 1024)).validate
      "primary_id_document" = ⟨true, []⟩ ∧
    (badDoc.validate "primary_id_document").errors =
      [("primary_id_document", [typeMsg "application/msword", sizeMsg])] ∧
    (upload_identity_documents (runOps t0 initApp [aliceOp]) badDoc pdfDoc).1 =
      invalidRes ((badDoc.validate "primary_id_document").errors ++
        (pdfDoc.validate "proof_of_address_document").errors) "id_verification" :=
  ⟨C8_document_rules.1 badDoc "primary_id_document" (by decide),
   C8_document_rules.2.1 badDoc "primary_id_document" (by decide),
   (C8_document_rules.2.2.1 (DocumentData.mk "passport.jpg" "image/jpeg"
      (5 * 1024 * 1024)) "primary_id_document" (by decide)).trans (by decide),
   C8_document_rules.2.2.2.1 badDoc "primary_id_document" (by decide) (by decide),
   (C8_document_rules.2.2.2.2 (runOps t0 initApp [aliceOp]) badDoc pdfDoc
      (by decide) (by decide) (by decide)).trans (by decide)⟩

/-- Counterexample to C9 as stated: the seven-character string 123-tab-456 is
accepted by the phone check although the tab is not a digit, a space or a
hyphen, so the claimed character set is too small. -/
theorem C9_counterexample :
    Validator.is_valid_phone "123\t456" = true ∧ ¬ phoneSpecClaim "123\t456" := by
  constructor
  · decide
  · rintro ⟨body, h | h, h7, h15, hall⟩
    · have hm : '\t' ∈ body := by
        rw [← h]
        decide
      exact absurd (hall '\t' hm) (by decide)
    · rw [show ("123\t456".toList) = ['1', '2', '3', '\t', '4', '5', '6'] from
        by decide] at h
      injection h with h1 _
      exact absurd h1 (by decide)

/-- Claim C10: in every state reachable from a fresh instance, being on
id_verification implies a committed personal-details record, and consequently
no upload from a reachable state ever produces the personal-details-missing
flow error. -/
theorem C10_id_verification_requires_pd (today : PyDate) (ops : List AppOp)
    (d1 d2 : DocumentData) :
    ((runOps today initApp ops).current_step = "id_verification" →
      (runOps today initApp ops).personal_details_data ≠ none) ∧
    errVal (upload_identity_documents (runOps today initApp ops) d1 d2).1
        "application_flow" ≠
      some (PyErr.es "Personal details must be completed first.") := by
  have h := runOps_reachInv today ops
  exact ⟨fun hs => h.2 (by rw [hs]; decide),
    upload_no_missing_pd_err (runOps today initApp ops) d1 d2 h⟩

/-- Witness for C10: after the Alice submission the instance is on
id_verification with a committed personal-details record, and an upload from
there never reports the personal-details-missing flow error. -/
theorem C10_id_verification_requires_pd_witness :
    (runOps t0 initApp [aliceOp]).current_step = "id_verification" ∧
    (runOps t0 initApp [aliceOp]).personal_details_data ≠ none ∧
    errVal (upload_identity_documents (runOps t0 initApp [aliceOp]) badDoc
        pdfDoc).1 "application_flow" ≠
      some (PyErr.es "Personal details must be completed first.") :=
  ⟨by decide,
   (C10_id_verification_requires_pd t0 [aliceOp] badDoc pdfDoc).1 (by decide),
   (C10_id_verification_requires_pd t0 [aliceOp] badDoc pdfDoc).2⟩
